import Mathlib

/-!
Shallow embedding of `codex-rs/tui/src/statusengine.rs` (the StatusEngine:
footer status-line composer with git refresh, center-ellipsis truncation,
and an external command provider with throttle and exponential backoff).

Modelling conventions:
* Rust `String`/`&str` is Lean `String`; Rust `str::len()` (a BYTE count)
  is `rustLen`, computed from the UTF-8 size of each character, while
  `str::chars()` is `String.data`.
* `std::time::Instant` is a `Nat` of milliseconds; `Instant::duration_since`
  is truncated subtraction (it saturates to zero), `now + Duration` is `+`.
* The two async external collaborators (`collect_git_info`,
  `working_diff_counts` from `codex_core::git_info`) and the spawned
  subprocess are outside the embedded core; their results enter the model
  as explicit parameters, so every engine function is a pure state
  transition.
* `ratatui`'s `Stylize::dim` (`style_status_line`) is a purely cosmetic
  post-process that leaves the content untouched; the line builders below
  return the content before that styling is applied.
-/

namespace StatusEngineModel

/-- UTF-8 encoded size of a character, mirroring Rust `char::len_utf8`
(and hence the byte length `str::len()` sums up). -/
def utf8Size (c : Char) : Nat :=
  if c.val ≤ 0x7F then 1
  else if c.val ≤ 0x7FF then 2
  else if c.val ≤ 0xFFFF then 3
  else 4

/-- Rust `str::len()`: the length of the string in UTF-8 bytes. -/
def rustLen (s : String) : Nat :=
  (s.data.map utf8Size).sum

/-- Configuration for the StatusEngine (`StatusEngineConfig`). -/
structure StatusEngineConfig where
  command_timeout_ms : Nat
  command : Option String
  enabled : Bool
  provider : String
deriving DecidableEq, Repr

/-- `StatusEngineConfig::default()` from the source. -/
def StatusEngineConfig.default : StatusEngineConfig :=
  { command_timeout_ms := 300
    command := none
    enabled := false
    provider := "builtin" }

/-- Available status items for Line 2 (`StatusItem`). -/
inductive StatusItem where
  | Model
  | Effort
  | WorkspaceName
  | GitBranch
  | Sandbox
  | Approval
deriving DecidableEq, Repr

/-- Current state of the session for status display (`StatusEngineState`).
`cwd : PathBuf` is modelled as a `String`. -/
structure StatusEngineState where
  model : Option String
  effort : Option String
  workspace_name : Option String
  git_branch : Option String
  git_counts : Option String
  sandbox : Option String
  approval : Option String
  since_session_ms : Option Nat
  cwd : Option String
deriving DecidableEq, Repr

/-- `StatusEngineState::default()`: every field absent. -/
def StatusEngineState.default : StatusEngineState :=
  { model := none, effort := none, workspace_name := none
    git_branch := none, git_counts := none, sandbox := none
    approval := none, since_session_ms := none, cwd := none }

/-- Output from the StatusEngine (`StatusEngineOutput`). -/
structure StatusEngineOutput where
  line2 : String
  line3 : Option String
deriving DecidableEq, Repr

/-- The StatusEngine itself: configuration, session state, item selection
and the engine-private provider run history. -/
structure StatusEngine where
  config : StatusEngineConfig
  state : StatusEngineState
  line2_items : List StatusItem
  last_command_run : Option Nat
  last_line3 : Option String
  command_cooldown : Nat
  consecutive_failures : Nat
  backoff_until : Option Nat
deriving DecidableEq, Repr

/-- Rust `Ord::clamp(lo, hi)` on unsigned integers. -/
def rustClamp (v lo hi : Nat) : Nat :=
  if v < lo then lo else if v > hi then hi else v

/-- Default item order installed by `StatusEngine::new`. -/
def defaultItems : List StatusItem :=
  [StatusItem.Model, StatusItem.Effort, StatusItem.WorkspaceName,
   StatusItem.GitBranch, StatusItem.Sandbox, StatusItem.Approval]

/-- `StatusEngine::new`: clamp `command_timeout_ms` to 150–500, replace an
unrecognized provider by "builtin", and initialise the run history. -/
def StatusEngine.new (config : StatusEngineConfig) : StatusEngine :=
  let config := { config with
    command_timeout_ms := rustClamp config.command_timeout_ms 150 500 }
  let config :=
    if config.provider ≠ "command" ∧ config.provider ≠ "builtin" then
      { config with provider := "builtin" }
    else config
  { config := config
    state := StatusEngineState.default
    line2_items := defaultItems
    last_command_run := none
    last_line3 := none
    command_cooldown := 300
    consecutive_failures := 0
    backoff_until := none }

/-- `StatusEngine::set_state`: session state is replaced wholesale. -/
def StatusEngine.set_state (e : StatusEngine) (state : StatusEngineState) :
    StatusEngine :=
  { e with state := state }

/-- `StatusEngine::set_line2_selection`. -/
def StatusEngine.set_line2_selection (e : StatusEngine)
    (items : List StatusItem) : StatusEngine :=
  { e with line2_items := items }

/-- The part of `codex_core::git_info::GitInfo` the engine reads: the
optional branch name (the collaborator's other fields are never used). -/
structure GitInfo where
  branch : Option String
deriving DecidableEq, Repr

/-- Formatting of the diff counts, mirroring `format!("+{a} -{r}")`
written with explicit concatenation. -/
def formatCounts (added removed : Nat) : String :=
  "+" ++ toString added ++ " -" ++ toString removed

/-- `StatusEngine::update_git_info`, with the awaited results of the two
external collaborators passed in: `gitInfoRes` is what
`collect_git_info(cwd)` returned and `diffRes` what
`working_diff_counts(cwd)` returned. Nothing happens when the session has
no working directory; each field is only assigned inside the collaborator's
own `if let Some(...)` arm. -/
def update_git_info (st : StatusEngineState) (gitInfoRes : Option GitInfo)
    (diffRes : Option (Nat × Nat)) : StatusEngineState :=
  match st.cwd with
  | none => st
  | some _ =>
    let st1 :=
      match gitInfoRes with
      | some gi => { st with git_branch := gi.branch }
      | none => st
    match diffRes with
    | some (added, removed) =>
        { st1 with git_counts := some (formatCounts added removed) }
    | none => st1

/-- One iteration of the `for item in &self.line2_items` loop of
`StatusEngine::build_line2`: push the rendered token when the matching
state field is present. -/
def build_line2_push (st : StatusEngineState) (parts : List String)
    (item : StatusItem) : List String :=
  match item with
  | StatusItem.Model =>
    match st.model with
    | some model => parts ++ [model]
    | none => parts
  | StatusItem.Effort =>
    match st.effort with
    | some effort => parts ++ [effort]
    | none => parts
  | StatusItem.WorkspaceName =>
    match st.workspace_name with
    | some name => parts ++ [name]
    | none => parts
  | StatusItem.GitBranch =>
    match st.git_branch with
    | some branch =>
      let git_part :=
        match st.git_counts with
        | some counts => branch ++ " " ++ counts
        | none => branch
      parts ++ [git_part]
    | none => parts
  | StatusItem.Sandbox =>
    match st.sandbox with
    | some sandbox => parts ++ [sandbox]
    | none => parts
  | StatusItem.Approval =>
    match st.approval with
    | some approval => parts ++ [approval]
    | none => parts

/-- Content of `StatusEngine::build_line2` before the cosmetic
`style_status_line` (ratatui dim) post-process: collect the parts in
selection order and join them with the separator; an empty collection
yields the empty string. -/
def build_line2 (st : StatusEngineState) (items : List StatusItem) :
    String :=
  let parts := items.foldl (build_line2_push st) []
  if parts.isEmpty then "" else String.intercalate " | " parts

/-- Per-item rendered token, extracted to state the loop's behaviour:
`build_line2` appends exactly the tokens of the present fields, in
selection order. -/
def render_item (st : StatusEngineState) : StatusItem → Option String
  | StatusItem.Model => st.model
  | StatusItem.Effort => st.effort
  | StatusItem.WorkspaceName => st.workspace_name
  | StatusItem.GitBranch =>
    st.git_branch.map (fun branch =>
      match st.git_counts with
      | some counts => branch ++ " " ++ counts
      | none => branch)
  | StatusItem.Sandbox => st.sandbox
  | StatusItem.Approval => st.approval

/-- `StatusEngine::truncate_with_ellipsis`: return the text unchanged when
its byte length fits, degrade to a clipped "..." below width 3, and
otherwise keep `available / 2` leading characters and the remaining
trailing characters around a single `…` glyph, where
`available = max_width - "…".len()` (`len()` is the glyph's UTF-8 byte
length, 3). -/
def truncate_with_ellipsis (text : String) (max_width : Nat) : String :=
  if rustLen text ≤ max_width then text
  else if max_width < 3 then ⟨"...".data.take max_width⟩
  else
    let ellipsis := "…"
    let available := max_width - rustLen ellipsis
    let left_len := available / 2
    let right_len := available - left_len
    let chars := text.data
    let left_part := chars.take left_len
    let right_part := (chars.reverse.take right_len).reverse
    ⟨left_part ++ ellipsis.data ++ right_part⟩

/-- One iteration of the part-building loop of
`StatusEngine::get_line2_with_width`: identical to `build_line2_push`
except that the git-branch token is truncated to the width estimated to
remain for it. -/
def line2_width_push (e : StatusEngine) (max_width : Nat)
    (parts : List String) (item : StatusItem) : List String :=
  match item with
  | StatusItem.Model =>
    match e.state.model with
    | some model => parts ++ [model]
    | none => parts
  | StatusItem.Effort =>
    match e.state.effort with
    | some effort => parts ++ [effort]
    | none => parts
  | StatusItem.WorkspaceName =>
    match e.state.workspace_name with
    | some name => parts ++ [name]
    | none => parts
  | StatusItem.GitBranch =>
    match e.state.git_branch with
    | some branch =>
      let git_part :=
        match e.state.git_counts with
        | some counts => branch ++ " " ++ counts
        | none => branch
      let separator_len := if parts.isEmpty then 0 else rustLen " | "
      let other_parts_len :=
        (parts.map rustLen).sum + (parts.length - 1) * rustLen " | "
      let remaining_parts_estimate :=
        (e.line2_items.length - parts.length - 1) * 15
      let available_for_branch :=
        max_width - (other_parts_len + separator_len + remaining_parts_estimate)
      let git_part :=
        if rustLen git_part > available_for_branch ∧ available_for_branch > 3
        then truncate_with_ellipsis git_part available_for_branch
        else git_part
      parts ++ [git_part]
    | none => parts
  | StatusItem.Sandbox =>
    match e.state.sandbox with
    | some sandbox => parts ++ [sandbox]
    | none => parts
  | StatusItem.Approval =>
    match e.state.approval with
    | some approval => parts ++ [approval]
    | none => parts

/-- Content of `StatusEngine::get_line2_with_width` before styling: build
the parts with the branch-targeted truncation, join, and as a fallback
truncate the whole joined line when it still exceeds `max_width`. -/
def get_line2_with_width (e : StatusEngine) (max_width : Nat) : String :=
  let parts := e.line2_items.foldl (line2_width_push e max_width) []
  if parts.isEmpty then ""
  else
    let result := String.intercalate " | " parts
    if rustLen result > max_width then
      truncate_with_ellipsis result max_width
    else result

/-- Result type of `run_command_provider`:
`Result<Option<String>, Box<dyn Error>>` with the error payload erased. -/
abbrev RunResult := Except Unit (Option String)

/-- What happened to one spawned provider invocation, abstracting the
process I/O performed by `run_command_provider`: the payload write and the
await either fail (`stdinErr` / `waitErr`), the hard timeout fires first
(`timeout`), or the process exits with a status and captured stdout;
spawning itself can also fail (`spawnErr`). -/
inductive ProcEvent where
  | spawnErr
  | timeout
  | stdinErr
  | waitErr
  | exited (success : Bool) (stdout : String)
deriving DecidableEq, Repr

/-- Rust `stdout.lines().next().unwrap_or("")`: text up to the first
newline, with a trailing carriage return stripped; the empty string when
stdout is empty. -/
def rust_first_line (s : String) : String :=
  let line := (s.splitOn "\n").headD ""
  if line.endsWith "\r" then line.dropRight 1 else line

/-- Classification performed by `StatusEngine::run_command_provider` once
the subprocess interaction is abstracted into a `ProcEvent`: no configured
command short-circuits to `Ok(None)`; an I/O failure at spawn, write or
wait is an `Err`; a timeout is swallowed into `Ok(None)`; a non-success
exit status is `Ok(None)`; a success status yields the trimmed first line
of stdout when non-empty, else `Ok(None)`. Rust trims with Unicode
whitespace, modelled here by `String.trim` (ASCII whitespace), which
agrees on every input the claims touch. -/
def run_command_provider (command : Option String) (ev : ProcEvent) :
    RunResult :=
  match command with
  | none => Except.ok none
  | some _ =>
    match ev with
    | ProcEvent.spawnErr => Except.error ()
    | ProcEvent.stdinErr => Except.error ()
    | ProcEvent.waitErr => Except.error ()
    | ProcEvent.timeout => Except.ok none
    | ProcEvent.exited success stdout =>
      if success then
        let first_line := (rust_first_line stdout).trim
        if first_line.isEmpty then Except.ok none
        else Except.ok (some first_line)
      else Except.ok none

/-- Outcome-handling phase of `StatusEngine::maybe_run_command_provider`
(the `match self.run_command_provider().await` block): `Ok(Some)` caches
and returns the new line resetting the failure counter, `Ok(None)` resets
the counter and keeps the cached line, `Err` increments the counter and,
once it has reached 3, sets the backoff deadline to
`now + min(5000, 1000 * (1 << (failures - 3)))` evaluated in `u64`,
always returning the cached line. The `u64` evaluation is modelled with
release-build semantics: the shift amount is masked modulo 64 and the
product wraps modulo `2 ^ 64`, so from 58 consecutive failures on the
product overflows and the capped exponential formula breaks down — at 64
failures `1000 * (1 << 61)` wraps to 0 and the backoff window is empty.
(A debug build instead panics on that multiply overflow at 58 failures;
a crash has no value in this total model, so the wrapping evaluation is
the one embedded.) -/
def provider_outcome_step (e : StatusEngine) (now : Nat)
    (runResult : RunResult) : StatusEngine × Option String :=
  match runResult with
  | Except.ok (some output) =>
    ({ e with
        last_command_run := some now
        last_line3 := some output
        consecutive_failures := 0 }, some output)
  | Except.ok none =>
    let e1 := { e with
        last_command_run := some now
        consecutive_failures := 0 }
    (e1, e1.last_line3)
  | Except.error _ =>
    let e1 := { e with
        last_command_run := some now
        consecutive_failures := e.consecutive_failures + 1 }
    let e2 :=
      if e1.consecutive_failures ≥ 3 then
        let backoff_ms :=
          min 5000
            ((1000 * 2 ^ ((e1.consecutive_failures - 3) % 64)) % 2 ^ 64)
        { e1 with backoff_until := some (now + backoff_ms) }
      else e1
    (e2, e2.last_line3)

/-- Throttle phase of `StatusEngine::maybe_run_command_provider`: when
less than `command_cooldown + jitter` milliseconds have passed since the
last invocation, return the cached line; otherwise fall through to the
outcome phase. -/
def provider_throttle_step (e : StatusEngine) (now jitter : Nat)
    (runResult : RunResult) : StatusEngine × Option String :=
  let effective_cooldown := e.command_cooldown + jitter
  match e.last_command_run with
  | some last_run =>
    if now - last_run < effective_cooldown then (e, e.last_line3)
    else provider_outcome_step e now runResult
  | none => provider_outcome_step e now runResult

/-- `StatusEngine::maybe_run_command_provider` as a pure transition on the
engine, returning the new engine and the produced `Option<String>`.
`now` is the tick instant in milliseconds; `jitter` is the value of
`(now.elapsed().as_nanos() % 100) as u64`, a cheap time-derived quantity
below 100 passed in explicitly; `runResult` is what the awaited
`run_command_provider` call produced. The source's early returns become
the phases above: provider/command gate, then the backoff window, then
the jittered throttle, then outcome handling. -/
def maybe_run_command_provider (e : StatusEngine) (now jitter : Nat)
    (runResult : RunResult) : StatusEngine × Option String :=
  if e.config.provider ≠ "command" ∨ e.config.command.isNone then (e, none)
  else
    match e.backoff_until with
    | some backoff_until =>
      if now < backoff_until then (e, e.last_line3)
      else
        provider_throttle_step { e with backoff_until := none } now jitter
          runResult
    | none => provider_throttle_step e now jitter runResult

/-- `StatusEngine::tick`: refresh git state from the collaborators, build
Line 2 over the refreshed state, then run the provider decision. -/
def tick (e : StatusEngine) (now jitter : Nat)
    (gitInfoRes : Option GitInfo) (diffRes : Option (Nat × Nat))
    (runResult : RunResult) : StatusEngine × StatusEngineOutput :=
  let e := { e with state := update_git_info e.state gitInfoRes diffRes }
  let line2 := build_line2 e.state e.line2_items
  let out := maybe_run_command_provider e now jitter runResult
  (out.1, { line2 := line2, line3 := out.2 })

/-- Concrete session state used to exercise the git refresh: working
directory present, both git fields currently populated. -/
def c1State : StatusEngineState :=
  { StatusEngineState.default with
      cwd := some "/workspace"
      git_branch := some "old-branch"
      git_counts := some "+7 -7" }

/-- Concrete engine with the command provider configured, a cached
secondary line "x" and two consecutive failures on record. -/
def cmdEngine : StatusEngine :=
  { config :=
      { command_timeout_ms := 300
        command := some "/usr/local/bin/statusline"
        enabled := true
        provider := "command" }
    state := StatusEngineState.default
    line2_items := defaultItems
    last_command_run := none
    last_line3 := some "x"
    command_cooldown := 300
    consecutive_failures := 2
    backoff_until := none }

/-- Concrete engine in the deep-failure regime: the command provider
configured and 63 consecutive failures already on record. -/
def wrapEngine : StatusEngine :=
  { cmdEngine with consecutive_failures := 63 }

/- Helper lemmas -/

/-- Every character occupies at least one UTF-8 byte. -/
theorem utf8Size_pos (c : Char) : 1 ≤ utf8Size c := by
  unfold utf8Size
  split_ifs <;> omega

/-- The character count of a string never exceeds its UTF-8 byte count. -/
theorem length_le_rustLen (s : String) : s.length ≤ rustLen s := by
  show s.data.length ≤ rustLen s
  unfold rustLen
  induction s.data with
  | nil => simp
  | cons c cs ih =>
    have := utf8Size_pos c
    simp only [List.map_cons, List.sum_cons, List.length_cons]
    omega

/-- The ellipsis glyph is three UTF-8 bytes long. -/
theorem rustLen_ellipsis : rustLen "…" = 3 := by decide

/-- A string that already fits its byte budget is returned unchanged. -/
theorem truncate_eq_of_le (text : String) (max_width : Nat)
    (h : rustLen text ≤ max_width) :
    truncate_with_ellipsis text max_width = text := by
  unfold truncate_with_ellipsis
  rw [if_pos h]

/-- A string over its byte budget is truncated to at most `max_width`
characters. -/
theorem truncate_length_le_of_gt (text : String) (max_width : Nat)
    (h : max_width < rustLen text) :
    (truncate_with_ellipsis text max_width).length ≤ max_width := by
  simp only [truncate_with_ellipsis, rustLen_ellipsis, String.length]
  split_ifs with h1 h2
  · exact absurd h1 (by omega)
  · exact List.length_take_le _ _
  · have hL := List.length_take_le ((max_width - 3) / 2) text.data
    have hR := List.length_take_le ((max_width - 3) - (max_width - 3) / 2)
      text.data.reverse
    have hm : ("…".data).length = 1 := rfl
    simp only [List.length_append, List.length_reverse, hm]
    omega

/-- Each loop iteration of `build_line2` appends exactly the rendered
token of the current item, when its field is present. -/
theorem build_line2_push_eq (st : StatusEngineState) (parts : List String)
    (item : StatusItem) :
    build_line2_push st parts item = parts ++ (render_item st item).toList := by
  cases item <;>
    simp only [build_line2_push, render_item] <;>
    (try cases st.model) <;> (try cases st.effort) <;>
    (try cases st.workspace_name) <;> (try cases st.git_branch) <;>
    (try cases st.git_counts) <;> (try cases st.sandbox) <;>
    (try cases st.approval) <;> simp

/-- Folding the push step over the selection collects the rendered tokens
of the present fields, in selection order. -/
theorem foldl_build_line2_push (st : StatusEngineState) :
    ∀ (items : List StatusItem) (parts : List String),
      items.foldl (build_line2_push st) parts
        = parts ++ items.filterMap (render_item st)
  | [], parts => by simp
  | item :: items, parts => by
    rw [List.foldl_cons, foldl_build_line2_push st items, build_line2_push_eq]
    cases h : render_item st item <;> simp [List.filterMap_cons, h]

/-- The loop of `build_line2` amounts to joining the rendered tokens of
the present fields with the separator. -/
theorem build_line2_eq_intercalate (st : StatusEngineState)
    (items : List StatusItem) :
    build_line2 st items
      = String.intercalate " | " (items.filterMap (render_item st)) := by
  unfold build_line2
  rw [foldl_build_line2_push st items []]
  simp only [List.nil_append]
  split_ifs with h
  · rw [List.isEmpty_iff.mp h]
    rfl
  · rfl

/-- The all-absent state renders no token for any item. -/
theorem render_item_default (item : StatusItem) :
    render_item StatusEngineState.default item = none := by
  cases item <;> rfl

/-- While strictly inside the backoff window (with the command provider
configured), the decision function returns the cached line and leaves the
engine untouched. -/
theorem backoff_short_circuit (e : StatusEngine) (now jitter : Nat)
    (r : RunResult) (b : Nat)
    (hp : e.config.provider = "command")
    (hc : e.config.command.isSome = true)
    (hb : e.backoff_until = some b) (hlt : now < b) :
    maybe_run_command_provider e now jitter r = (e, e.last_line3) := by
  unfold maybe_run_command_provider
  rw [if_neg, hb]
  · dsimp only
    rw [if_pos hlt]
  · push_neg
    refine ⟨hp, ?_⟩
    rcases hcc : e.config.command with _ | cmd
    · rw [hcc] at hc
      simp at hc
    · simp

/-- With the command provider configured, no active backoff window and the
throttle satisfied, the decision function runs the provider: it reduces to
the outcome phase on the engine with its (expired or absent) backoff
deadline cleared. -/
theorem maybe_run_reaches_outcome (e : StatusEngine) (now jitter : Nat)
    (r : RunResult)
    (hp : e.config.provider = "command")
    (hc : e.config.command.isSome = true)
    (hb : ∀ b, e.backoff_until = some b → b ≤ now)
    (ht : ∀ t, e.last_command_run = some t →
      e.command_cooldown + jitter ≤ now - t) :
    maybe_run_command_provider e now jitter r
      = provider_outcome_step { e with backoff_until := none } now r := by
  have hgate : ¬ (e.config.provider ≠ "command"
      ∨ e.config.command.isNone = true) := by
    push_neg
    refine ⟨hp, ?_⟩
    rcases hcc : e.config.command with _ | cmd
    · rw [hcc] at hc
      simp at hc
    · simp
  have hthrottle :
      provider_throttle_step { e with backoff_until := none } now jitter r
        = provider_outcome_step { e with backoff_until := none } now r := by
    unfold provider_throttle_step
    rcases hlr : e.last_command_run with _ | t
    · simp only [hlr]
    · simp only [hlr]
      rw [if_neg]
      have := ht t hlr
      omega
  unfold maybe_run_command_provider
  rw [if_neg hgate]
  rcases hbu : e.backoff_until with _ | b
  · have : ({ e with backoff_until := none } : StatusEngine) = e := by
      cases e
      simp_all
    rw [← this] at hthrottle ⊢
    exact hthrottle
  · have hble := hb b hbu
    dsimp only
    rw [if_neg (by omega)]
    exact hthrottle

/-- The outcome phase never touches the configuration. -/
theorem provider_outcome_step_config (e : StatusEngine) (now : Nat)
    (r : RunResult) :
    (provider_outcome_step e now r).1.config = e.config := by
  unfold provider_outcome_step
  rcases r with u | o
  · dsimp only
    split_ifs <;> rfl
  · rcases o with _ | out <;> rfl

/-- The throttle phase never touches the configuration. -/
theorem provider_throttle_step_config (e : StatusEngine) (now jitter : Nat)
    (r : RunResult) :
    (provider_throttle_step e now jitter r).1.config = e.config := by
  unfold provider_throttle_step
  rcases e.last_command_run with _ | t
  · exact provider_outcome_step_config e now r
  · dsimp only
    split_ifs
    · rfl
    · exact provider_outcome_step_config e now r

/-- The whole provider decision never touches the configuration: no
configuration field is re-validated (or modified) after construction. -/
theorem maybe_run_config (e : StatusEngine) (now jitter : Nat)
    (r : RunResult) :
    (maybe_run_command_provider e now jitter r).1.config = e.config := by
  unfold maybe_run_command_provider
  split_ifs with hg
  · rfl
  · rcases e.backoff_until with _ | b
    · exact provider_throttle_step_config e now jitter r
    · dsimp only
      split_ifs
      · rfl
      · exact provider_throttle_step_config { e with backoff_until := none }
          now jitter r

/- Claim theorems -/

/-- C1 (counterexample): in a tick whose session state has a working
directory, when the git-info collaborator yields nothing at all the
previously stored branch and diff counts are preserved, not overwritten
with absence — refuting the claim that a collaborator yielding nothing
for a field always overwrites the stored value with absence. -/
theorem C1_counterexample :
    c1State.cwd.isSome = true
    ∧ (update_git_info c1State none none).git_branch = some "old-branch"
    ∧ (update_git_info c1State none none).git_counts = some "+7 -7" :=
  ⟨rfl, rfl, rfl⟩

/-- C1 (amended): for every tick in which the session state has a working
directory, the refresh overwrites the branch field with exactly the branch
carried by the collaborator's result (absence included) whenever
`collect_git_info` returns a result, and preserves the previous branch
when it returns nothing; the diff-counts field is overwritten with the
formatted pair whenever `working_diff_counts` returns one and preserved
otherwise. -/
theorem C1_amended_refresh (st : StatusEngineState)
    (gitInfoRes : Option GitInfo) (diffRes : Option (Nat × Nat))
    (h : st.cwd.isSome = true) :
    (update_git_info st gitInfoRes diffRes).git_branch
      = (match gitInfoRes with
         | some gi => gi.branch
         | none => st.git_branch)
    ∧ (update_git_info st gitInfoRes diffRes).git_counts
      = (match diffRes with
         | some (added, removed) => some (formatCounts added removed)
         | none => st.git_counts) := by
  rcases hcwd : st.cwd with _ | c
  · rw [hcwd] at h
    simp at h
  · unfold update_git_info
    rw [hcwd]
    rcases gitInfoRes with _ | gi <;> rcases diffRes with _ | ⟨a, r⟩ <;> simp

/-- C1 (witness): with a working directory present, a collaborator result
whose branch is absent overwrites the stored branch with absence, and a
returned diff pair overwrites the stored counts. -/
theorem C1_amended_refresh_witness :
    (update_git_info c1State (some { branch := none }) (some (2, 3))).git_branch
        = none
    ∧ (update_git_info c1State (some { branch := none }) (some (2, 3))).git_counts
        = some (formatCounts 2 3) :=
  C1_amended_refresh c1State (some { branch := none }) (some (2, 3)) rfl

/-- C2 (counterexample): for the ten-character text "abcdefghij" and width
5 ≥ 3 the claim demands a result of character length exactly 5, but the
code returns a string of character length 3 (it reserves the ellipsis
glyph's three-byte UTF-8 length, not one character unit). -/
theorem C2_counterexample :
    (3 ≤ 5 ∧ 5 < ("abcdefghij" : String).length)
    ∧ ¬ (truncate_with_ellipsis "abcdefghij" 5).length = 5 := by
  decide

/-- C2 (amended): for every text T and width W ≥ 3 with the character
length of T greater than W, `truncate` reserves three units (the UTF-8
byte length of the single ellipsis glyph), splits the remaining W − 3
units into a left segment (floor of the half) and a right segment (the
remainder), and returns a string of character length exactly W − 2 formed
from that prefix of T, the ellipsis glyph, and that suffix of T. -/
theorem C2_amended_truncate (T : String) (W : Nat) (h3 : 3 ≤ W)
    (hlen : W < T.length) :
    (truncate_with_ellipsis T W).data
      = T.data.take ((W - 3) / 2)
        ++ '…' :: (T.data.reverse.take ((W - 3) - (W - 3) / 2)).reverse
    ∧ (truncate_with_ellipsis T W).length = W - 2 := by
  have hrl : W < rustLen T := lt_of_lt_of_le hlen (length_le_rustLen T)
  have hn : W < T.data.length := hlen
  simp only [truncate_with_ellipsis, rustLen_ellipsis]
  rw [if_neg (by omega), if_neg (by omega)]
  constructor
  · show (T.data.take ((W - 3) / 2) ++ "…".data ++ _ : List Char) = _
    rw [List.append_assoc]
    rfl
  · show (T.data.take ((W - 3) / 2) ++ "…".data ++ _ : List Char).length
        = W - 2
    have h1 : min ((W - 3) / 2) T.data.length = (W - 3) / 2 :=
      Nat.min_eq_left (by omega)
    have h2 : min ((W - 3) - (W - 3) / 2) T.data.length
        = (W - 3) - (W - 3) / 2 := Nat.min_eq_left (by omega)
    have hm : ("…".data).length = 1 := rfl
    simp only [List.length_append, List.length_take, List.length_reverse,
      hm, h1, h2]
    omega

/-- C2 (witness): at text "abcdefghij" and width 5 the amended claim holds
with result "a…j" of character length 3 = 5 − 2. -/
theorem C2_amended_truncate_witness :
    (truncate_with_ellipsis "abcdefghij" 5).data
      = ("abcdefghij" : String).data.take 1
        ++ '…' :: (("abcdefghij" : String).data.reverse.take 1).reverse
    ∧ (truncate_with_ellipsis "abcdefghij" 5).length = 5 - 2 :=
  C2_amended_truncate "abcdefghij" 5 (by decide) (by decide)

/-- C3 (counterexample): the text "ééé" has character length 3 ≤ 4, yet
`truncate("ééé", 4)` does not return it unchanged — the fitting comparison
is made on UTF-8 byte length (6 here), not character units. -/
theorem C3_counterexample :
    ("ééé" : String).length ≤ 4
    ∧ ¬ truncate_with_ellipsis "ééé" 4 = "ééé" := by
  decide

/-- C3 (amended): for every text T and width W at least the UTF-8 byte
length of T, `truncate(T, W)` returns T unchanged; the fitting comparison
is made on byte length, so multi-byte text whose character count (but not
byte count) fits within W is not returned unchanged. -/
theorem C3_amended_identity (T : String) (W : Nat) (h : rustLen T ≤ W) :
    truncate_with_ellipsis T W = T :=
  truncate_eq_of_le T W h

/-- C3 (witness): the two-byte text "é" is returned unchanged at width 2. -/
theorem C3_amended_identity_witness :
    rustLen "é" ≤ 2 ∧ truncate_with_ellipsis "é" 2 = "é" :=
  ⟨by decide, C3_amended_identity "é" 2 (by decide)⟩

/-- C4 (code-bug evaluation at the failing input): with 63 failures on
record, the next Error outcome raises the counter to n = 64, where the
`u64` product `1000 * (1 << 61)` wraps to zero — the code sets a
zero-width backoff window (deadline = now, here 10) instead of the
now + min(5000, 1000·2^(n−3)) = now + 5000 that the claim, the code's own
explicit 5000 ms cap and the spec's backoff policy all demand; a debug
build panics on the same multiplication from 58 failures on. -/
theorem C4_backoff_wrap_eval :
    (maybe_run_command_provider wrapEngine 10 0
        (Except.error ())).1.consecutive_failures = 64
    ∧ (maybe_run_command_provider wrapEngine 10 0
        (Except.error ())).1.backoff_until = some 10
    ∧ ¬ (maybe_run_command_provider wrapEngine 10 0
        (Except.error ())).1.backoff_until
      = some (10 + min 5000 (1000 * 2 ^ (64 - 3))) := by
  decide

/-- C5: with the command provider configured and neither backoff nor
throttle short-circuiting the call, an Empty outcome resets the
consecutive-failure counter to zero and leaves the cached last-good
secondary line unchanged and returned. -/
theorem C5_empty_outcome (e : StatusEngine) (now jitter : Nat)
    (hp : e.config.provider = "command")
    (hc : e.config.command.isSome = true)
    (hb : ∀ b, e.backoff_until = some b → b ≤ now)
    (ht : ∀ t, e.last_command_run = some t →
      e.command_cooldown + jitter ≤ now - t) :
    (maybe_run_command_provider e now jitter
        (Except.ok none)).1.consecutive_failures = 0
    ∧ (maybe_run_command_provider e now jitter
        (Except.ok none)).1.last_line3 = e.last_line3
    ∧ (maybe_run_command_provider e now jitter (Except.ok none)).2
      = e.last_line3 := by
  have hrun := maybe_run_reaches_outcome e now jitter (Except.ok none)
    hp hc hb ht
  rw [hrun]
  exact ⟨rfl, rfl, rfl⟩

/-- C5 (witness): an Empty outcome after a prior Success("x") still
returns "x" on that call and resets the failure counter to zero. -/
theorem C5_empty_outcome_witness :
    cmdEngine.last_line3 = some "x"
    ∧ (maybe_run_command_provider cmdEngine 10 0 (Except.ok none)).2
      = cmdEngine.last_line3
    ∧ (maybe_run_command_provider cmdEngine 10 0
        (Except.ok none)).1.consecutive_failures = 0 := by
  have h := C5_empty_outcome cmdEngine 10 0 rfl rfl
    (fun b hbu => by simp [cmdEngine] at hbu)
    (fun t hlr => by simp [cmdEngine] at hlr)
  exact ⟨rfl, h.2.2, h.1⟩

/-- C6: a completed runner invocation classifies as follows — timeout
yields Empty (`Ok(None)`) and is never surfaced as Error; a normal exit
with non-zero status yields Empty; a normal exit with success status
yields Success of the trimmed first stdout line when non-empty and Empty
otherwise; and exactly the I/O failures during spawn, write and read
surface as Error. -/
theorem C6_outcome_classification (cmd out : String) :
    run_command_provider (some cmd) ProcEvent.timeout = Except.ok none
    ∧ run_command_provider (some cmd) (ProcEvent.exited false out)
      = Except.ok none
    ∧ run_command_provider (some cmd) (ProcEvent.exited true out)
      = (if ((rust_first_line out).trim).isEmpty then Except.ok none
         else Except.ok (some ((rust_first_line out).trim)))
    ∧ run_command_provider (some cmd) ProcEvent.spawnErr = Except.error ()
    ∧ run_command_provider (some cmd) ProcEvent.stdinErr = Except.error ()
    ∧ run_command_provider (some cmd) ProcEvent.waitErr = Except.error ()
    ∧ (∀ ev : ProcEvent,
        run_command_provider (some cmd) ev = Except.error ()
          ↔ (ev = ProcEvent.spawnErr ∨ ev = ProcEvent.stdinErr
             ∨ ev = ProcEvent.waitErr)) := by
  refine ⟨rfl, rfl, rfl, rfl, rfl, rfl, ?_⟩
  intro ev
  cases ev <;> simp only [run_command_provider] <;> simp
  split_ifs <;> simp

/-- C7: the line composer iterates the selection in order, appending the
rendered token of each item whose field is present (the git-branch item
rendering as branch plus counts when counts are present and as the bare
branch otherwise), joins the tokens with " | ", yields the empty string
for an empty selection or an all-absent state, and on
{Model, GitBranch} with model "gpt5", branch "main" and counts "+1 -0"
yields "gpt5 | main +1 -0" before styling. -/
theorem C7_line_composer :
    (∀ (st : StatusEngineState) (items : List StatusItem),
      build_line2 st items
        = String.intercalate " | " (items.filterMap (render_item st)))
    ∧ (∀ st : StatusEngineState, build_line2 st [] = "")
    ∧ (∀ items : List StatusItem,
        build_line2 StatusEngineState.default items = "")
    ∧ (∀ (st : StatusEngineState) (parts : List String),
        build_line2_push st parts StatusItem.GitBranch
          = parts ++ (st.git_branch.map (fun branch =>
              match st.git_counts with
              | some counts => branch ++ " " ++ counts
              | none => branch)).toList)
    ∧ build_line2
        { StatusEngineState.default with
            model := some "gpt5"
            git_branch := some "main"
            git_counts := some "+1 -0" }
        [StatusItem.Model, StatusItem.GitBranch] = "gpt5 | main +1 -0" := by
  refine ⟨build_line2_eq_intercalate, fun st => rfl, ?_, ?_, by decide⟩
  · intro items
    rw [build_line2_eq_intercalate]
    have hnil : items.filterMap (render_item StatusEngineState.default)
        = [] := by
      induction items with
      | nil => rfl
      | cons i is ih => simp [List.filterMap_cons, render_item_default, ih]
    rw [hnil]
    rfl
  · intro st parts
    exact build_line2_push_eq st parts StatusItem.GitBranch

/-- C8: construction clamps the command timeout into [150, 500]
milliseconds, keeps a provider of "builtin" or "command" and replaces any
other provider with "builtin"; and neither field is re-validated (or
changed) afterwards — the provider decision and state replacement leave
the configuration untouched. -/
theorem C8_config_validation (cfg : StatusEngineConfig) :
    (StatusEngine.new cfg).config.command_timeout_ms
      = max 150 (min 500 cfg.command_timeout_ms)
    ∧ 150 ≤ (StatusEngine.new cfg).config.command_timeout_ms
    ∧ (StatusEngine.new cfg).config.command_timeout_ms ≤ 500
    ∧ (cfg.provider = "builtin" ∨ cfg.provider = "command" →
        (StatusEngine.new cfg).config.provider = cfg.provider)
    ∧ (cfg.provider ≠ "builtin" ∧ cfg.provider ≠ "command" →
        (StatusEngine.new cfg).config.provider = "builtin")
    ∧ (∀ (e : StatusEngine) (now jitter : Nat) (r : RunResult),
        (maybe_run_command_provider e now jitter r).1.config = e.config)
    ∧ (∀ (e : StatusEngine) (st : StatusEngineState),
        (StatusEngine.set_state e st).config = e.config) := by
  have hclamp : (StatusEngine.new cfg).config.command_timeout_ms
      = rustClamp cfg.command_timeout_ms 150 500 := by
    unfold StatusEngine.new
    dsimp only
    split_ifs <;> rfl
  have hms : rustClamp cfg.command_timeout_ms 150 500
      = max 150 (min 500 cfg.command_timeout_ms) := by
    unfold rustClamp
    split_ifs <;> omega
  refine ⟨hclamp.trans hms, ?_, ?_, ?_, ?_, maybe_run_config,
    fun e st => rfl⟩
  · rw [hclamp, hms]
    omega
  · rw [hclamp, hms]
    omega
  · intro hv
    unfold StatusEngine.new
    dsimp only
    rw [if_neg]
    intro hcontra
    rcases hv with hv | hv
    · exact hcontra.2 hv
    · exact hcontra.1 hv
  · intro hinv
    unfold StatusEngine.new
    dsimp only
    rw [if_pos ⟨hinv.2, hinv.1⟩]

/-- C8 (witness): an out-of-range timeout of 1000 ms is stored as 500 and
the unrecognized provider "weird" is replaced with "builtin". -/
theorem C8_config_validation_witness :
    (StatusEngine.new
        { command_timeout_ms := 1000, command := none, enabled := false
          provider := "weird" }).config.provider = "builtin" :=
  (C8_config_validation
      { command_timeout_ms := 1000, command := none, enabled := false
        provider := "weird" }).2.2.2.2.1 ⟨by decide, by decide⟩

/-- C9: a call to the provider decision function made strictly before a
set backoff deadline (with the command provider configured) returns the
cached last-good output and leaves every engine-private history field
unchanged — last_command_run, consecutive_failures and last_line3 are not
modified and the backoff deadline remains set — regardless of what the
runner would have produced. -/
theorem C9_backoff_frame (e : StatusEngine) (now jitter : Nat)
    (r : RunResult) (b : Nat)
    (hp : e.config.provider = "command")
    (hc : e.config.command.isSome = true)
    (hb : e.backoff_until = some b) (hlt : now < b) :
    maybe_run_command_provider e now jitter r = (e, e.last_line3)
    ∧ (maybe_run_command_provider e now jitter r).1.last_command_run
      = e.last_command_run
    ∧ (maybe_run_command_provider e now jitter r).1.consecutive_failures
      = e.consecutive_failures
    ∧ (maybe_run_command_provider e now jitter r).1.last_line3
      = e.last_line3
    ∧ (maybe_run_command_provider e now jitter r).1.backoff_until = some b
    ∧ (maybe_run_command_provider e now jitter r).2 = e.last_line3 := by
  have h := backoff_short_circuit e now jitter r b hp hc hb hlt
  rw [h]
  exact ⟨rfl, rfl, rfl, rfl, hb, rfl⟩

/-- C9 (witness): with the backoff deadline set to 100, a call at time 10
returns the cached output and the engine unchanged whatever the runner
would have produced. -/
theorem C9_backoff_frame_witness :
    maybe_run_command_provider { cmdEngine with backoff_until := some 100 }
        10 0 (Except.ok (some "fresh"))
      = ({ cmdEngine with backoff_until := some 100 },
         { cmdEngine with backoff_until := some 100 }.last_line3) :=
  (C9_backoff_frame { cmdEngine with backoff_until := some 100 } 10 0
    (Except.ok (some "fresh")) 100 rfl rfl rfl (by decide)).1

/-- C10: for every engine state, selection and maximum width, the content
of the width-aware primary line (before the cosmetic styling post-process)
has a character count of at most the maximum width: either the joined
line already fits its byte budget (and characters never outnumber bytes),
or the global fallback truncation brings it within the bound. -/
theorem C10_width_bound (e : StatusEngine) (max_width : Nat) :
    (get_line2_with_width e max_width).length ≤ max_width := by
  unfold get_line2_with_width
  dsimp only
  split_ifs with h1 h2
  · simp
  · exact truncate_length_le_of_gt _ _ h2
  · exact le_trans (length_le_rustLen _) (Nat.le_of_not_lt h2)

end StatusEngineModel
